import Mathlib

/-!
Shallow embedding of the availability / capacity-reservation core of the
camping booking backend (`src/routes/user/booking.js` and the admin
bookings router).  Dates are modelled as natural day ordinals (the code
normalizes to UTC day boundaries); SQL `INTEGER` columns are modelled as
`Int`; the relational store is a record of lists; a transaction that rolls
back is modelled by returning the store that was current when `BEGIN` ran.
Public ids (UUIDs in the code) are modelled as naturals; the UUID-format
regex check has no analogue on naturals and a malformed id is subsumed by
the not-found lookup result (both leave the store untouched).
-/

inductive BookingStatus
  | PENDING
  | PAID
  | CANCELLED
  | CHECK_IN
  | CHECKOUT
deriving DecidableEq, Repr

/-- The statuses in `status IN ('PAID', 'CHECK_IN')` filters: bookings that
count toward capacity and stock usage. -/
def BookingStatus.isActive : BookingStatus → Bool
  | .PAID => true
  | .CHECK_IN => true
  | _ => false

/-- The `allowed` array of the admin status endpoint, as a parser: the
endpoint accepts exactly these five literals. -/
def parseStatus : String → Option BookingStatus
  | "PENDING" => some .PENDING
  | "PAID" => some .PAID
  | "CANCELLED" => some .CANCELLED
  | "CHECK_IN" => some .CHECK_IN
  | "CHECKOUT" => some .CHECKOUT
  | _ => none

structure Camp where
  id : Nat
  public_id : Nat
  nightly_price : Int
  daily_capacity : Int
  is_active : Bool
deriving DecidableEq, Repr

structure Equipment where
  id : Nat
  public_id : Nat
  name : String
  price : Int
  stock : Int
deriving DecidableEq, Repr

structure Booking where
  id : Nat
  public_id : Nat
  user_id : Nat
  camp_id : Nat
  start_date : Nat
  end_date : Nat
  people_count : Int
  total_price : Int
  status : BookingStatus
deriving DecidableEq, Repr

structure BookingEquipment where
  booking_id : Nat
  equipment_id : Nat
  quantity : Int
  nights : Int
  price : Int
deriving DecidableEq, Repr

structure Store where
  camps : List Camp
  equipments : List Equipment
  bookings : List Booking
  booking_equipments : List BookingEquipment
  nextBookingId : Nat
deriving DecidableEq, Repr

/-- The constant `PRICE_PER_PERSON_PER_DAY = 10000` from booking.js. -/
def PRICE_PER_PERSON_PER_DAY : Int := 10000

/-- The day sequence `generate_series(start, end - 1 day)`: all days of the
half-open range `[s, e)`. -/
def daysIn (s e : Nat) : List Nat :=
  (List.range (e - s)).map (fun i => s + i)

/-- The join condition `day >= b.start_date AND day < b.end_date`. -/
def coversDay (b : Booking) (d : Nat) : Bool :=
  b.start_date ≤ d && d < b.end_date

/-- One row of the camp availability query: for a day, sum `people_count`
over bookings of the camp in an active status whose interval contains the
day (`availabilityQuery` in booking.js). -/
def campUsedOn (st : Store) (campId : Nat) (d : Nat) : Int :=
  (st.bookings.filter
      (fun b => b.camp_id == campId && b.status.isActive && coversDay b d)).foldl
    (fun acc b => acc + b.people_count) 0

/-- One row of the equipment `usageQuery`: for a day, sum `be.quantity` over
pairs of an active booking covering that day and an attachment of the given
equipment belonging to it.  Note the join uses the booking's own full
`[start_date, end_date)` interval; the attachment's `nights` column does not
appear in the query. -/
def equipUsedOn (st : Store) (eqId : Nat) (d : Nat) : Int :=
  (st.bookings.filter (fun b => b.status.isActive && coversDay b d)).foldl
    (fun acc b =>
      acc +
        (st.booking_equipments.filter
            (fun be => be.booking_id == b.id && be.equipment_id == eqId)).foldl
          (fun a be => a + be.quantity) 0)
    0

/-- The `maxUsed` loop of GET /booking/equipments: maximum `used` over the
rows of the usage query, starting from 0. -/
def equipMaxUsed (st : Store) (eqId : Nat) (s e : Nat) : Int :=
  (daysIn s e).foldl
    (fun m d =>
      let u := equipUsedOn st eqId d
      if u > m then u else m)
    0

/-- The `availableStock` computed by GET /booking/equipments for one
equipment row: `stock - maxUsed`, clamped at 0. -/
def equipAvailability (st : Store) (eq : Equipment) (s e : Nat) : Int :=
  let remaining := eq.stock - equipMaxUsed st eq.id s e
  if remaining < 0 then 0 else remaining

/-- The response of GET /booking/equipments over a valid range: one row per
equipment, each carrying a single aggregate `availableStock`. -/
def equipmentsWithAvailability (st : Store) (s e : Nat) : List (Equipment × Int) :=
  st.equipments.map (fun eq => (eq, equipAvailability st eq s e))

/-- Structured rejection results of the booking handlers.  Each constructor
carries exactly the data the corresponding JSON response body carries beyond
its fixed message: the camp-capacity rejection carries the violating day
(`date: insufficient.day`) and no remaining quantity; the equipment-stock
rejection carries the remaining quantity (`sisa: ...` in the message) and no
day. -/
inductive BookingError
  | invalidInput (msg : String)
  | campNotFound
  | equipmentNotFound (publicId : Nat)
  | capacityFull (day : Nat)
  | stockInsufficient (name : String) (remaining : Int)
  | forbidden
  | bookingNotFound
  | internalError
deriving DecidableEq, Repr

/-- The day/remaining fields a rejection response exposes to the caller. -/
structure RejectionPayload where
  day : Option Nat
  remaining : Option Int
deriving DecidableEq, Repr

def payloadOf : BookingError → RejectionPayload
  | .capacityFull d => { day := some d, remaining := none }
  | .stockInsufficient _ r => { day := none, remaining := some r }
  | _ => { day := none, remaining := none }

/-- One element of the request's `equipments` array.  `nights := none`
models an absent `nights` field (the code then defaults it to the booking's
night count). -/
structure EquipmentRequest where
  equipmentId : Nat
  quantity : Int
  nights : Option Int
deriving DecidableEq, Repr

structure CreateBookingRequest where
  campId : Nat
  startDate : Nat
  endDate : Nat
  peopleCount : Int
  equipments : List EquipmentRequest
  userId : Nat
deriving DecidableEq, Repr

/-- A validated equipment line ready to insert (the `equipmentInserts`
array of booking.js). -/
structure EquipmentInsert where
  equipment_id : Nat
  quantity : Int
  nights : Int
  price : Int
deriving DecidableEq, Repr

/-- The equipment loop of POST /booking: items with `quantity <= 0` are
skipped by `continue`; otherwise the equipment is resolved by public id, the
rental nights are defaulted/validated, the per-day stock check runs over the
booking's date range, and the line price `eq.price * quantity * rentalNights`
is accrued.  Returns the added price and the insert list, or the first
error. -/
def processEquipments (st : Store) (bookingNights : Int) (s e : Nat) :
    List EquipmentRequest → Except BookingError (Int × List EquipmentInsert)
  | [] => .ok (0, [])
  | item :: rest =>
    if item.quantity ≤ 0 then
      processEquipments st bookingNights s e rest
    else
      match st.equipments.find? (fun q => q.public_id == item.equipmentId) with
      | none => .error (.equipmentNotFound item.equipmentId)
      | some eq =>
        let rentalNights :=
          match item.nights with
          | none => bookingNights
          | some k => k
        if rentalNights ≤ 0 then
          .error (.invalidInput "nights untuk alat harus lebih besar dari 0")
        else if rentalNights > bookingNights then
          .error (.invalidInput "nights untuk alat tidak boleh melebihi durasi menginap")
        else
          match (daysIn s e).find?
              (fun d => decide (equipUsedOn st eq.id d + item.quantity > eq.stock)) with
          | some d =>
            .error (.stockInsufficient eq.name (eq.stock - equipUsedOn st eq.id d))
          | none =>
            let itemPrice := eq.price * item.quantity * rentalNights
            match processEquipments st bookingNights s e rest with
            | .error err => .error err
            | .ok (extra, inserts) =>
              .ok (extra + itemPrice,
                { equipment_id := eq.id, quantity := item.quantity,
                  nights := rentalNights, price := itemPrice } :: inserts)

/-- POST /booking.  Validation, camp lookup (`FOR UPDATE`), the per-day camp
capacity check (first violating row of the day-ordered availability query),
night count `max(1, end - start)`, base price from the constant
`PRICE_PER_PERSON_PER_DAY`, the equipment loop, then insertion of the
booking (status PENDING) and its attachments.  Every rejection path rolls
the transaction back, i.e. returns the entry store. -/
def createBooking (st : Store) (r : CreateBookingRequest) :
    Store × Except BookingError Booking :=
  if r.endDate ≤ r.startDate then
    (st, .error (.invalidInput "endDate harus lebih besar dari startDate"))
  else if r.peopleCount ≤ 0 then
    (st, .error (.invalidInput "peopleCount harus lebih besar dari 0"))
  else
    match st.camps.find? (fun c => c.public_id == r.campId && c.is_active) with
    | none => (st, .error .campNotFound)
    | some camp =>
      match (daysIn r.startDate r.endDate).find?
          (fun d => decide (campUsedOn st camp.id d + r.peopleCount > camp.daily_capacity)) with
      | some d => (st, .error (.capacityFull d))
      | none =>
        let nights : Int := max 1 ((r.endDate : Int) - (r.startDate : Int))
        match processEquipments st nights r.startDate r.endDate r.equipments with
        | .error err => (st, .error err)
        | .ok (extra, inserts) =>
          let totalPrice := nights * PRICE_PER_PERSON_PER_DAY * r.peopleCount + extra
          let bid := st.nextBookingId
          let newBooking : Booking :=
            { id := bid, public_id := bid, user_id := r.userId, camp_id := camp.id,
              start_date := r.startDate, end_date := r.endDate,
              people_count := r.peopleCount, total_price := totalPrice,
              status := .PENDING }
          let newAtts := inserts.map (fun i =>
            ({ booking_id := bid, equipment_id := i.equipment_id,
               quantity := i.quantity, nights := i.nights,
               price := i.price } : BookingEquipment))
          ({ st with
              bookings := st.bookings ++ [newBooking],
              booking_equipments := st.booking_equipments ++ newAtts,
              nextBookingId := bid + 1 },
           .ok newBooking)

inductive StatusError
  | invalidStatus
  | bookingNotFound
deriving DecidableEq, Repr

/-- PUT /admin/bookings/:id/status.  After validating the status literal
against the `allowed` list and finding the booking (`FOR UPDATE`), the
handler unconditionally runs `UPDATE bookings SET status = $1`: the previous
status is only read for the PAID notification, and no capacity or
transition check is performed. -/
def setStatus (st : Store) (publicId : Nat) (status : String) :
    Store × Except StatusError Booking :=
  match parseStatus status with
  | none => (st, .error .invalidStatus)
  | some target =>
    match st.bookings.find? (fun b => b.public_id == publicId) with
    | none => (st, .error .bookingNotFound)
    | some b =>
      let b' := { b with status := target }
      ({ st with bookings := st.bookings.map (fun x => if x.id == b.id then b' else x) },
       .ok b')

/-- PUT /booking/:bookingId/equipments.  The handler finds the booking,
checks ownership, recomputes the night count, re-locks the camp and re-runs
the per-day capacity check with the booking's own people count, deletes all
attachments of the booking, then iterates over the submitted `equipments`.
The first statement of the loop body evaluates
`if (!equipmentId || !quantity || quantity <= 0)` while `equipmentId` is
declared by `const equipmentId = eq.id` later in the same block, so entering
the loop throws a ReferenceError (temporal dead zone); the catch handler
rolls the transaction back and answers with the generic internal error.
Only an empty array reaches the price reset and the commit. -/
def replaceEquipments (st : Store) (userId : Nat) (isAdmin : Bool)
    (bookingPublicId : Nat) (equipments : List EquipmentRequest) :
    Store × Except BookingError Booking :=
  match st.bookings.find? (fun b => b.public_id == bookingPublicId) with
  | none => (st, .error .bookingNotFound)
  | some booking =>
    if booking.user_id != userId && !isAdmin then
      (st, .error .forbidden)
    else
      match st.camps.find? (fun c => c.id == booking.camp_id && c.is_active) with
      | none => (st, .error .campNotFound)
      | some camp =>
        match (daysIn booking.start_date booking.end_date).find?
            (fun d => decide (campUsedOn st camp.id d + booking.people_count >
              camp.daily_capacity)) with
        | some d => (st, .error (.capacityFull d))
        | none =>
          let stDel := { st with
            booking_equipments :=
              st.booking_equipments.filter (fun be => be.booking_id != booking.id) }
          match equipments with
          | _ :: _ => (st, .error .internalError)
          | [] =>
            let nights : Int :=
              max 1 ((booking.end_date : Int) - (booking.start_date : Int))
            let totalPrice := nights * PRICE_PER_PERSON_PER_DAY * booking.people_count
            let b' := { booking with total_price := totalPrice }
            ({ stDel with
                bookings := stDel.bookings.map (fun x => if x.id == booking.id then b' else x) },
             .ok b')

/-- A client-driven history: booking creations and admin status changes. -/
inductive Op
  | create (r : CreateBookingRequest)
  | changeStatus (publicId : Nat) (status : String)

def applyOp (st : Store) : Op → Store
  | .create r => (createBooking st r).1
  | .changeStatus pid s => (setStatus st pid s).1

def runOps (st : Store) (ops : List Op) : Store :=
  ops.foldl applyOp st

/-- The capacity invariant of the spec: on every day, the active usage of
every camp stays within its daily capacity. -/
def campInvariant (st : Store) : Prop :=
  ∀ c ∈ st.camps, ∀ d : Nat, campUsedOn st c.id d ≤ c.daily_capacity

/-- Attachments currently stored for a booking id. -/
def attachmentsOf (st : Store) (bid : Nat) : List BookingEquipment :=
  st.booking_equipments.filter (fun be => be.booking_id == bid)

def sumPrices (l : List BookingEquipment) : Int :=
  (l.map (fun be => be.price)).sum

/-! Concrete stores and requests used by the scenario theorems. -/

def camp1 : Camp :=
  { id := 1, public_id := 101, nightly_price := 10000, daily_capacity := 10, is_active := true }

def eqTent : Equipment :=
  { id := 1, public_id := 201, name := "Tenda", price := 50000, stock := 5 }

def st0C1 : Store :=
  { camps := [camp1], equipments := [], bookings := [], booking_equipments := [],
    nextBookingId := 1 }

def req6 : CreateBookingRequest :=
  { campId := 101, startDate := 0, endDate := 2, peopleCount := 6, equipments := [],
    userId := 7 }

/-- Two 6-person bookings on a 10-capacity camp, both later set to PAID by
the admin endpoint. -/
def opsC1 : List Op :=
  [.create req6, .create req6, .changeStatus 1 "PAID", .changeStatus 2 "PAID"]

def bookA6 : Booking :=
  { id := 1, public_id := 1, user_id := 7, camp_id := 1, start_date := 0, end_date := 2,
    people_count := 6, total_price := 120000, status := .PAID }

def bookB6 : Booking :=
  { id := 2, public_id := 2, user_id := 8, camp_id := 1, start_date := 0, end_date := 2,
    people_count := 6, total_price := 120000, status := .PENDING }

/-- A camp already holding an active 6-person booking, plus a PENDING
6-person booking for the same days. -/
def stC2 : Store :=
  { camps := [camp1], equipments := [], bookings := [bookA6, bookB6],
    booking_equipments := [], nextBookingId := 3 }

def bookB : Booking :=
  { id := 1, public_id := 1, user_id := 7, camp_id := 1, start_date := 0, end_date := 2,
    people_count := 4, total_price := 180000, status := .PAID }

def attB : BookingEquipment :=
  { booking_id := 1, equipment_id := 1, quantity := 2, nights := 1, price := 100000 }

/-- Scenario B of the spec: stock 5, quantity 2 attached with nights = 1 to
a PAID booking spanning two nights. -/
def stB : Store :=
  { camps := [camp1], equipments := [eqTent], bookings := [bookB],
    booking_equipments := [attB], nextBookingId := 2 }

def campX : Camp :=
  { id := 1, public_id := 101, nightly_price := 20000, daily_capacity := 10, is_active := true }

def stC4 : Store :=
  { camps := [campX], equipments := [], bookings := [], booking_equipments := [],
    nextBookingId := 1 }

def rC4 : CreateBookingRequest :=
  { campId := 101, startDate := 0, endDate := 2, peopleCount := 4, equipments := [],
    userId := 7 }

def stC6 : Store :=
  { camps := [camp1], equipments := [], bookings := [bookA6], booking_equipments := [],
    nextBookingId := 2 }

def rC6 : CreateBookingRequest :=
  { campId := 101, startDate := 0, endDate := 2, peopleCount := 6, equipments := [],
    userId := 8 }

def stC8 : Store :=
  { camps := [camp1], equipments := [eqTent], bookings := [], booking_equipments := [],
    nextBookingId := 1 }

def rC8 : CreateBookingRequest :=
  { campId := 101, startDate := 0, endDate := 2, peopleCount := 4,
    equipments := [{ equipmentId := 201, quantity := 0, nights := some 1 }], userId := 7 }

def bookC9 : Booking :=
  { id := 1, public_id := 1, user_id := 7, camp_id := 1, start_date := 0, end_date := 2,
    people_count := 4, total_price := 80000, status := .CANCELLED }

def bookC9x : Booking :=
  { id := 2, public_id := 2, user_id := 7, camp_id := 1, start_date := 0, end_date := 2,
    people_count := 4, total_price := 80000, status := .CHECKOUT }

def stC9 : Store :=
  { camps := [camp1], equipments := [], bookings := [bookC9, bookC9x],
    booking_equipments := [], nextBookingId := 3 }

def book5 : Booking :=
  { id := 1, public_id := 1, user_id := 7, camp_id := 1, start_date := 0, end_date := 2,
    people_count := 6, total_price := 120000, status := .PAID }

/-- A PAID 6-person booking on a 10-capacity camp: the re-admission check of
the equipment-replacement handler double-counts it and fails before the
equipment loop is reached. -/
def stC5x : Store :=
  { camps := [camp1], equipments := [eqTent], bookings := [book5],
    booking_equipments := [], nextBookingId := 2 }

def bookP : Booking :=
  { id := 1, public_id := 1, user_id := 7, camp_id := 1, start_date := 0, end_date := 2,
    people_count := 4, total_price := 999, status := .PENDING }

def stC5 : Store :=
  { camps := [camp1], equipments := [eqTent], bookings := [bookP],
    booking_equipments := [attB], nextBookingId := 2 }

def itemTent1 : EquipmentRequest :=
  { equipmentId := 201, quantity := 1, nights := some 1 }

/-- C1: the claimed invariant fails: starting from a store satisfying it, a
sequence of two booking creations followed by two admin status changes
yields day-0 usage 12 on a camp of capacity 10. -/
theorem camp_invariant_not_preserved_by_ops :
    campInvariant st0C1 ∧ ¬ campInvariant (runOps st0C1 opsC1) := by
  constructor
  · intro c hc d
    have hc1 : c = camp1 := List.mem_singleton.mp hc
    subst hc1
    simp [campUsedOn, st0C1, camp1]
  · intro h
    have hm : camp1 ∈ (runOps st0C1 opsC1).camps := by decide
    have h0 := h camp1 hm 0
    have h12 : campUsedOn (runOps st0C1 opsC1) camp1.id 0 = 12 := by decide
    rw [h12] at h0
    simp [camp1] at h0

/-- C2: counterexample to the claimed admission gate on status changes: the
PENDING 6-person booking cannot fit (active usage 6 + 6 > 10), yet the admin
endpoint moves it to PAID and the day-0 usage afterwards is 12. -/
theorem setStatus_paid_no_admission_counterexample :
    campUsedOn stC2 camp1.id 0 + bookB6.people_count > camp1.daily_capacity ∧
    (setStatus stC2 2 "PAID").2 = .ok { bookB6 with status := .PAID } ∧
    campUsedOn (setStatus stC2 2 "PAID").1 camp1.id 0 = 12 :=
  ⟨by decide, rfl, by decide⟩

/-- C2 amended: the admin status endpoint performs no admission check: for
any store, moving any existing booking to PAID succeeds unconditionally. -/
theorem setStatus_paid_always_succeeds (st : Store) (pid : Nat) (b : Booking)
    (hfind : st.bookings.find? (fun x => x.public_id == pid) = some b) :
    (setStatus st pid "PAID").2 = .ok { b with status := .PAID } := by
  unfold setStatus
  rw [show parseStatus "PAID" = some BookingStatus.PAID from rfl, hfind]

theorem setStatus_paid_always_succeeds_witness :
    (setStatus stC2 2 "PAID").2 = .ok { bookB6 with status := .PAID } :=
  setStatus_paid_always_succeeds stC2 2 bookB6 (by decide)

/-- Rewriting every attachment's `nights` column to a constant. -/
def setAttNights (st : Store) (k : Int) : Store :=
  { st with booking_equipments := st.booking_equipments.map (fun be => { be with nights := k }) }

/-- C3 amended: the usage query never reads the attachment's `nights`
column: usage is invariant under rewriting it, so an attachment consumes
stock on every day of the owning booking's full span; on Scenario B the
endpoint reports the single aggregate availableStock 3 for the range. -/
theorem equip_usage_ignores_att_nights :
    (∀ (st : Store) (k : Int) (eqId d : Nat),
        equipUsedOn (setAttNights st k) eqId d = equipUsedOn st eqId d) ∧
    equipmentsWithAvailability stB 0 2 = [(eqTent, 3)] := by
  constructor
  · intro st k eqId d
    unfold equipUsedOn setAttNights
    simp only []
    congr 1
    funext acc b
    rw [List.filter_map, List.foldl_map]
    rfl
  · rfl

/-- C3: counterexample to the claimed anchored window: in Scenario B the
attachment has nights = 1 on a booking starting day 0, so the claim puts its
consumption only on day 0; the code still counts quantity 2 on day 1, and
the availability endpoint returns one aggregate value 3 instead of per-day
values 3 and 5. -/
theorem equip_usage_outside_window_counterexample :
    attB.nights = 1 ∧ bookB.start_date = 0 ∧ bookB.end_date = 2 ∧
    equipUsedOn stB eqTent.id 1 = 2 ∧
    equipmentsWithAvailability stB 0 2 = [(eqTent, 3)] :=
  ⟨rfl, rfl, rfl, by decide, rfl⟩

/-- C8 amended: the equipment loop of POST /booking silently skips any
request line with a non-positive quantity (the `continue` branch), rather
than rejecting it. -/
theorem process_equipments_skips_nonpositive (st : Store) (n : Int) (s e : Nat)
    (item : EquipmentRequest) (rest : List EquipmentRequest)
    (h : item.quantity ≤ 0) :
    processEquipments st n s e (item :: rest) = processEquipments st n s e rest := by
  simp only [processEquipments]
  rw [if_pos h]

theorem process_equipments_skips_nonpositive_witness :
    processEquipments stC8 2 0 2 [{ equipmentId := 201, quantity := 0, nights := some 1 }] =
      processEquipments stC8 2 0 2 [] :=
  process_equipments_skips_nonpositive stC8 2 0 2 _ [] (by decide)

/-- C8: counterexample to the claimed rejection: a creation carrying an
equipment line with quantity 0 succeeds (status PENDING, camp-only price)
and stores no attachment, instead of failing with an Invalid error. -/
theorem quantity_zero_skipped_counterexample :
    (createBooking stC8 rC8).2 =
      .ok { id := 1, public_id := 1, user_id := 7, camp_id := 1, start_date := 0,
            end_date := 2, people_count := 4, total_price := 80000,
            status := .PENDING } ∧
    attachmentsOf (createBooking stC8 rC8).1 1 = [] :=
  ⟨rfl, by decide⟩

/-- C9 amended: the admin status endpoint constrains only the status
literal, not the transition: any existing booking, even one in a terminal
status, is moved to any requested status. -/
theorem setStatus_any_transition (st : Store) (pid : Nat) (b : Booking)
    (statusStr : String) (target : BookingStatus)
    (_hterm : b.status = .CANCELLED ∨ b.status = .CHECKOUT)
    (hparse : parseStatus statusStr = some target)
    (hfind : st.bookings.find? (fun x => x.public_id == pid) = some b) :
    (setStatus st pid statusStr).2 = .ok { b with status := target } := by
  unfold setStatus
  rw [hparse, hfind]

theorem setStatus_any_transition_witness :
    (setStatus stC9 1 "PAID").2 = .ok { bookC9 with status := .PAID } :=
  setStatus_any_transition stC9 1 bookC9 "PAID" .PAID (Or.inl rfl) rfl (by decide)

/-- C9: counterexample to terminality: a CANCELLED booking is moved to PAID
and a CHECKOUT booking is moved to CHECK_IN by the admin endpoint. -/
theorem terminal_status_not_enforced_counterexample :
    bookC9.status = .CANCELLED ∧
    (setStatus stC9 1 "PAID").2 = .ok { bookC9 with status := .PAID } ∧
    ((setStatus stC9 1 "PAID").1.bookings.map (fun b => b.status)) =
      [.PAID, .CHECKOUT] ∧
    bookC9x.status = .CHECKOUT ∧
    (setStatus stC9 2 "CHECK_IN").2 = .ok { bookC9x with status := .CHECK_IN } :=
  ⟨rfl, rfl, by decide, rfl, rfl⟩

theorem foldl_if_max_eq (f : Nat → Int) :
    ∀ (l : List Nat) (m : Int),
      l.foldl (fun m d => let u := f d; if u > m then u else m) m =
      l.foldl (fun m d => max m (f d)) m := by
  intro l
  induction l with
  | nil => intro m; rfl
  | cons a t ih =>
    intro m
    simp only [List.foldl_cons]
    rw [ih]
    congr 1
    by_cases hc : f a > m
    · rw [if_pos hc, max_eq_right hc.le]
    · rw [if_neg hc, max_eq_left (not_lt.mp hc)]

/-- Stated from the claim's words: the maximum, over the days of the range,
of the summed quantities of the equipment attached to active bookings
covering the day. -/
def specMaxDailyUse (st : Store) (eqId : Nat) (s e : Nat) : Int :=
  ((daysIn s e).map (fun d => equipUsedOn st eqId d)).foldl max 0

/-- C10: the availability endpoint reports, per equipment, the single value
`max 0 (stock - m)` where `m` is the peak daily usage over the requested
range; the value is never negative and there is one row per equipment. -/
theorem equip_availability_formula (st : Store) (eq : Equipment) (s e : Nat) :
    equipAvailability st eq s e = max 0 (eq.stock - specMaxDailyUse st eq.id s e) ∧
    0 ≤ equipAvailability st eq s e ∧
    (equipmentsWithAvailability st s e).length = st.equipments.length := by
  have hmax : equipMaxUsed st eq.id s e = specMaxDailyUse st eq.id s e := by
    unfold equipMaxUsed specMaxDailyUse
    rw [List.foldl_map]
    exact foldl_if_max_eq (fun d => equipUsedOn st eq.id d) (daysIn s e) 0
  refine ⟨?_, ?_, ?_⟩
  · show (if eq.stock - equipMaxUsed st eq.id s e < 0 then 0
        else eq.stock - equipMaxUsed st eq.id s e) = _
    rw [hmax]
    by_cases hc : eq.stock - specMaxDailyUse st eq.id s e < 0
    · rw [if_pos hc, max_eq_left hc.le]
    · rw [if_neg hc, max_eq_right (not_lt.mp hc)]
  · show 0 ≤ (if eq.stock - equipMaxUsed st eq.id s e < 0 then 0
        else eq.stock - equipMaxUsed st eq.id s e)
    split <;> omega
  · exact List.length_map _ _

theorem daysIn_pairwise (s e : Nat) : (daysIn s e).Pairwise (· < ·) := by
  unfold daysIn
  refine List.Pairwise.map _ ?_ (List.pairwise_lt_range (e - s))
  intro a b hab
  omega

theorem find?_min_of_pairwise_lt {p : Nat → Bool} :
    ∀ (l : List Nat), l.Pairwise (· < ·) → ∀ d, l.find? p = some d →
      ∀ x ∈ l, p x = true → d ≤ x := by
  intro l
  induction l with
  | nil => intro _ d hd; simp at hd
  | cons a t ih =>
    intro hp d hd x hx hpx
    rcases List.pairwise_cons.mp hp with ⟨ha, ht⟩
    cases hpa : p a with
    | true =>
      rw [List.find?_cons_of_pos _ hpa] at hd
      injection hd with hda
      subst hda
      rcases List.mem_cons.mp hx with hxa | hxt
      · exact le_of_eq hxa.symm
      · exact (ha x hxt).le
    | false =>
      rw [List.find?_cons_of_neg _ (by simp [hpa])] at hd
      rcases List.mem_cons.mp hx with hxa | hxt
      · subst hxa; rw [hpa] at hpx; exact absurd hpx (by simp)
      · exact ih ht d hd x hxt hpx

/-- C6 amended: a failed camp-capacity admission reports the first violating
day of the range and no remaining quantity, while a failed equipment-stock
admission reports a remaining quantity and no day. -/
theorem rejection_payload_shape (st : Store) (r : CreateBookingRequest)
    (camp : Camp) (d : Nat)
    (hse : ¬ r.endDate ≤ r.startDate) (hp : ¬ r.peopleCount ≤ 0)
    (hc : st.camps.find? (fun c => c.public_id == r.campId && c.is_active) = some camp)
    (hd : (daysIn r.startDate r.endDate).find?
        (fun x => decide (campUsedOn st camp.id x + r.peopleCount > camp.daily_capacity)) =
        some d) :
    (createBooking st r).2 = .error (.capacityFull d) ∧
    (∀ d2 ∈ daysIn r.startDate r.endDate,
        campUsedOn st camp.id d2 + r.peopleCount > camp.daily_capacity → d ≤ d2) ∧
    payloadOf (.capacityFull d) = { day := some d, remaining := none } ∧
    (∀ nm rem, payloadOf (.stockInsufficient nm rem) =
      { day := none, remaining := some rem }) := by
  refine ⟨?_, ?_, rfl, fun nm rem => rfl⟩
  · unfold createBooking
    rw [if_neg hse, if_neg hp]
    simp only [hc, hd]
  · intro d2 hd2 hviol
    exact find?_min_of_pairwise_lt _ (daysIn_pairwise _ _) d hd d2 hd2 (by
      exact decide_eq_true hviol)

/-- C6: counterexample to the claimed rejection contents: the camp-capacity
rejection carries the violating day but not the remaining quantity (which is
4 at the time of failure). -/
theorem capacity_rejection_missing_remaining :
    (createBooking stC6 rC6).2 = .error (.capacityFull 0) ∧
    camp1.daily_capacity - campUsedOn stC6 camp1.id 0 = 4 ∧
    (payloadOf (.capacityFull 0)).remaining = none :=
  ⟨rfl, by decide, rfl⟩

/-- C7: every rejected admission attempt (creation or equipment
replacement) leaves the store exactly as it was: all rejection paths of
both handlers return the entry store (the transaction rollback). -/
theorem admission_failure_leaves_store_unchanged :
    (∀ (st : Store) (r : CreateBookingRequest) (st2 : Store) (e : BookingError),
        createBooking st r = (st2, .error e) → st2 = st) ∧
    (∀ (st : Store) (uid : Nat) (adm : Bool) (pid : Nat)
        (eqs : List EquipmentRequest) (st2 : Store) (e : BookingError),
        replaceEquipments st uid adm pid eqs = (st2, .error e) → st2 = st) := by
  constructor
  · intro st r st2 e h
    unfold createBooking at h
    repeat' split at h
    all_goals try dsimp only at h
    repeat' split at h
    all_goals injection h with h1 h2
    all_goals
      first
      | exact h1.symm
      | exact Except.noConfusion h2
  · intro st uid adm pid eqs st2 e h
    unfold replaceEquipments at h
    repeat' split at h
    all_goals injection h with h1 h2
    all_goals
      first
      | exact h1.symm
      | exact Except.noConfusion h2

theorem admission_failure_leaves_store_unchanged_witness :
    (createBooking stC6 rC6).1 = stC6 ∧
    (replaceEquipments stC5 7 false 1 [itemTent1]).1 = stC5 := by
  constructor
  · exact admission_failure_leaves_store_unchanged.1 stC6 rC6
      (createBooking stC6 rC6).1 (.capacityFull 0) rfl
  · exact admission_failure_leaves_store_unchanged.2 stC5 7 false 1 [itemTent1]
      (replaceEquipments stC5 7 false 1 [itemTent1]).1 .internalError rfl

theorem createBooking_camps_eq (st : Store) (r : CreateBookingRequest) :
    ((createBooking st r).1).camps = st.camps := by
  unfold createBooking
  repeat' split
  all_goals try rfl
  all_goals try dsimp only
  all_goals split
  all_goals rfl

theorem createBooking_campUsedOn (st : Store) (r : CreateBookingRequest)
    (cid d : Nat) :
    campUsedOn ((createBooking st r).1) cid d = campUsedOn st cid d := by
  unfold createBooking
  repeat' split
  all_goals try rfl
  all_goals try dsimp only
  all_goals split
  all_goals try rfl
  unfold campUsedOn
  simp [List.filter_append, BookingStatus.isActive]

/-- C1 amended: booking creation preserves the capacity invariant (the new
booking is written with status PENDING, which does not count toward usage,
and every rejection path leaves the store unchanged); the admin status
endpoint, which checks nothing, is what can break it. -/
theorem create_preserves_camp_invariant (st : Store) (r : CreateBookingRequest)
    (h : campInvariant st) : campInvariant ((createBooking st r).1) := by
  intro c hc d
  rw [createBooking_campUsedOn]
  exact h c (by rw [createBooking_camps_eq] at hc; exact hc) d

theorem create_preserves_camp_invariant_witness :
    campInvariant ((createBooking st0C1 req6).1) := by
  apply create_preserves_camp_invariant st0C1 req6
  intro c hc d
  have hc1 : c = camp1 := List.mem_singleton.mp hc
  subst hc1
  simp [campUsedOn, st0C1, camp1]

theorem processEquipments_ok_spec (st : Store) (n : Int) (s e : Nat) :
    ∀ (l : List EquipmentRequest) (extra : Int) (inserts : List EquipmentInsert),
      processEquipments st n s e l = .ok (extra, inserts) →
      extra = (inserts.map (fun i => i.price)).sum ∧
      ∀ i ∈ inserts, ∃ eq ∈ st.equipments, i.equipment_id = eq.id ∧
        i.price = eq.price * i.quantity * i.nights := by
  intro l
  induction l with
  | nil =>
    intro extra inserts h
    simp only [processEquipments, Except.ok.injEq, Prod.mk.injEq] at h
    obtain ⟨he, hi⟩ := h
    subst he
    subst hi
    exact ⟨rfl, by intro i hi2; exact absurd hi2 (List.not_mem_nil i)⟩
  | cons item rest ih =>
    intro extra inserts h
    simp only [processEquipments] at h
    by_cases hq : item.quantity ≤ 0
    · rw [if_pos hq] at h
      exact ih extra inserts h
    · rw [if_neg hq] at h
      cases hfind : st.equipments.find? (fun q => q.public_id == item.equipmentId) with
      | none =>
        rw [hfind] at h
        exact Except.noConfusion h
      | some eq =>
        rw [hfind] at h
        dsimp only at h
        cases hrest : processEquipments st n s e rest with
        | error err =>
          rw [hrest] at h
          dsimp only at h
          repeat' split at h
          all_goals exact Except.noConfusion h
        | ok pr =>
          obtain ⟨extra2, inserts2⟩ := pr
          rw [hrest] at h
          dsimp only at h
          repeat' split at h
          all_goals try exact Except.noConfusion h
          all_goals injection h with h1
          all_goals injection h1 with he hi
          all_goals subst he
          all_goals subst hi
          all_goals obtain ⟨ihe, ihm⟩ := ih extra2 inserts2 hrest
          all_goals refine ⟨by rw [List.map_cons, List.sum_cons, ihe]; exact add_comm _ _, ?_⟩
          all_goals intro i him
          all_goals rcases List.mem_cons.mp him with hieq | hitail
          all_goals try exact ihm i hitail
          all_goals subst hieq
          all_goals exact ⟨eq, List.mem_of_find?_eq_some hfind, rfl, rfl⟩

/-- The booking row inserted by a successful POST /booking. -/
def newBookingOf (st : Store) (r : CreateBookingRequest) (camp : Camp)
    (extra : Int) : Booking :=
  { id := st.nextBookingId, public_id := st.nextBookingId, user_id := r.userId,
    camp_id := camp.id, start_date := r.startDate, end_date := r.endDate,
    people_count := r.peopleCount,
    total_price := max 1 ((r.endDate : Int) - (r.startDate : Int)) *
      PRICE_PER_PERSON_PER_DAY * r.peopleCount + extra,
    status := .PENDING }

/-- The attachment row inserted for one validated equipment line. -/
def mkAttachment (bid : Nat) (i : EquipmentInsert) : BookingEquipment :=
  { booking_id := bid, equipment_id := i.equipment_id, quantity := i.quantity,
    nights := i.nights, price := i.price }

/-- The store committed by a successful POST /booking. -/
def stAfterCreate (st : Store) (r : CreateBookingRequest) (camp : Camp)
    (extra : Int) (inserts : List EquipmentInsert) : Store :=
  { st with
      bookings := st.bookings ++ [newBookingOf st r camp extra],
      booking_equipments :=
        st.booking_equipments ++ inserts.map (mkAttachment st.nextBookingId),
      nextBookingId := st.nextBookingId + 1 }

theorem createBooking_ok_eq (st : Store) (r : CreateBookingRequest) (camp : Camp)
    (extra : Int) (inserts : List EquipmentInsert)
    (hse : ¬ r.endDate ≤ r.startDate) (hp : ¬ r.peopleCount ≤ 0)
    (hcamp : st.camps.find? (fun c => c.public_id == r.campId && c.is_active) = some camp)
    (hcap : (daysIn r.startDate r.endDate).find?
        (fun d => decide (campUsedOn st camp.id d + r.peopleCount > camp.daily_capacity)) =
        none)
    (hpe : processEquipments st (max 1 ((r.endDate : Int) - (r.startDate : Int)))
        r.startDate r.endDate r.equipments = .ok (extra, inserts)) :
    createBooking st r =
      (stAfterCreate st r camp extra inserts, .ok (newBookingOf st r camp extra)) := by
  unfold createBooking
  rw [if_neg hse, if_neg hp]
  simp only [hcamp, hcap, hpe]
  rfl

/-- C5 amended: once the preliminary checks of the equipment-replacement
handler pass (booking found, caller authorized, camp active, capacity
re-check clean), any non-empty equipments array makes the loop body read
`equipmentId` in its temporal dead zone: the handler answers the generic
internal error and rolls back, leaving the store untouched; an empty array
completes, deleting all attachments of the booking and resetting its
total_price to the camp-only component. -/
theorem replace_equipments_behavior (st : Store) (uid : Nat) (adm : Bool)
    (pid : Nat) (eqs : List EquipmentRequest) (booking : Booking) (camp : Camp)
    (hb : st.bookings.find? (fun b => b.public_id == pid) = some booking)
    (hauth : (booking.user_id != uid && !adm) = false)
    (hcamp : st.camps.find? (fun c => c.id == booking.camp_id && c.is_active) = some camp)
    (hcap : (daysIn booking.start_date booking.end_date).find?
        (fun d => decide (campUsedOn st camp.id d + booking.people_count >
          camp.daily_capacity)) = none) :
    (eqs ≠ [] → replaceEquipments st uid adm pid eqs = (st, .error .internalError)) ∧
    (eqs = [] →
      attachmentsOf (replaceEquipments st uid adm pid eqs).1 booking.id = [] ∧
      (replaceEquipments st uid adm pid eqs).2 =
        .ok { booking with
                total_price := max 1 ((booking.end_date : Int) - (booking.start_date : Int)) *
                  PRICE_PER_PERSON_PER_DAY * booking.people_count }) := by
  constructor
  · intro hne
    cases heqs : eqs with
    | nil => exact absurd heqs hne
    | cons a l =>
      subst heqs
      unfold replaceEquipments
      simp [hb, hauth, hcamp, hcap]
  · intro hemp
    subst hemp
    unfold replaceEquipments
    simp only [hb, hauth, hcamp, hcap]
    rw [if_neg Bool.false_ne_true]
    constructor
    · unfold attachmentsOf
      dsimp only
      rw [List.filter_filter]
      rw [List.filter_eq_nil_iff]
      intro a ha
      simp
    · rfl

theorem replace_equipments_behavior_witness :
    (([itemTent1] : List EquipmentRequest) ≠ [] →
      replaceEquipments stC5 7 false 1 [itemTent1] = (stC5, .error .internalError)) ∧
    (([itemTent1] : List EquipmentRequest) = [] →
      attachmentsOf (replaceEquipments stC5 7 false 1 [itemTent1]).1 bookP.id = [] ∧
      (replaceEquipments stC5 7 false 1 [itemTent1]).2 =
        .ok { bookP with
                total_price := max 1 ((bookP.end_date : Int) - (bookP.start_date : Int)) *
                  PRICE_PER_PERSON_PER_DAY * bookP.people_count }) :=
  replace_equipments_behavior stC5 7 false 1 [itemTent1] bookP camp1
    (by decide) (by decide) (by decide) (by decide)

/-- C5: counterexample to "always returns the generic internal-error
response": the owner of an existing PAID 6-person booking on a 10-capacity
camp submits a non-empty equipments array; the handler's capacity re-check
double-counts the booking (6 + 6 > 10) and answers CapacityExceeded before
the loop is ever entered, not the generic internal error. -/
theorem replace_equipments_capacity_first_counterexample :
    book5.user_id = 7 ∧ book5.public_id = 1 ∧
    (replaceEquipments stC5x 7 false 1 [itemTent1]).2 = .error (.capacityFull 0) ∧
    BookingError.capacityFull 0 ≠ .internalError :=
  ⟨rfl, rfl, rfl, by decide⟩

theorem rejection_payload_shape_witness :
    (createBooking stC6 rC6).2 = .error (.capacityFull 0) ∧
    (∀ d2 ∈ daysIn rC6.startDate rC6.endDate,
        campUsedOn stC6 camp1.id d2 + rC6.peopleCount > camp1.daily_capacity → 0 ≤ d2) ∧
    payloadOf (.capacityFull 0) = { day := some 0, remaining := none } ∧
    (∀ nm rem, payloadOf (.stockInsufficient nm rem) =
      { day := none, remaining := some rem }) :=
  rejection_payload_shape stC6 rC6 camp1 0 (by decide) (by decide) (by decide) (by decide)

/-- C4 amended: a successful creation stores
`total_price = nights * PRICE_PER_PERSON_PER_DAY * peopleCount` (the fixed
constant 10000, not the camp's nightly_price) plus the sum of the stored
attachments' prices, each of which is the equipment's unit price times
quantity times rental nights. -/
theorem total_price_formula (st : Store) (r : CreateBookingRequest) (camp : Camp)
    (extra : Int) (inserts : List EquipmentInsert)
    (hse : ¬ r.endDate ≤ r.startDate) (hp : ¬ r.peopleCount ≤ 0)
    (hcamp : st.camps.find? (fun c => c.public_id == r.campId && c.is_active) = some camp)
    (hcap : (daysIn r.startDate r.endDate).find?
        (fun d => decide (campUsedOn st camp.id d + r.peopleCount > camp.daily_capacity)) =
        none)
    (hpe : processEquipments st (max 1 ((r.endDate : Int) - (r.startDate : Int)))
        r.startDate r.endDate r.equipments = .ok (extra, inserts))
    (hfresh : ∀ be ∈ st.booking_equipments, be.booking_id ≠ st.nextBookingId) :
    (createBooking st r).2 = .ok (newBookingOf st r camp extra) ∧
    (newBookingOf st r camp extra).total_price =
      max 1 ((r.endDate : Int) - (r.startDate : Int)) * PRICE_PER_PERSON_PER_DAY *
        r.peopleCount +
      sumPrices (attachmentsOf (createBooking st r).1 (newBookingOf st r camp extra).id) ∧
    ∀ be ∈ attachmentsOf (createBooking st r).1 (newBookingOf st r camp extra).id,
      ∃ eq ∈ st.equipments, be.equipment_id = eq.id ∧
        be.price = eq.price * be.quantity * be.nights := by
  have hcb := createBooking_ok_eq st r camp extra inserts hse hp hcamp hcap hpe
  have hnil : st.booking_equipments.filter
      (fun be => be.booking_id == st.nextBookingId) = [] := by
    rw [List.filter_eq_nil]
    intro a ha
    simpa using hfresh a ha
  have hall : (inserts.map (mkAttachment st.nextBookingId)).filter
      (fun be => be.booking_id == st.nextBookingId) =
      inserts.map (mkAttachment st.nextBookingId) := by
    rw [List.filter_eq_self]
    intro a ha
    rcases List.mem_map.mp ha with ⟨i, _, rfl⟩
    simp [mkAttachment]
  have hatt : attachmentsOf (createBooking st r).1 (newBookingOf st r camp extra).id =
      inserts.map (mkAttachment st.nextBookingId) := by
    rw [hcb]
    unfold attachmentsOf stAfterCreate
    dsimp only
    rw [show (newBookingOf st r camp extra).id = st.nextBookingId from rfl]
    rw [List.filter_append, hnil, hall, List.nil_append]
  obtain ⟨hsum, hmem⟩ := processEquipments_ok_spec st
    (max 1 ((r.endDate : Int) - (r.startDate : Int))) r.startDate r.endDate
    r.equipments extra inserts hpe
  refine ⟨by rw [hcb], ?_, ?_⟩
  · rw [hatt]
    have hps : sumPrices (inserts.map (mkAttachment st.nextBookingId)) =
        (inserts.map (fun i => i.price)).sum := by
      unfold sumPrices
      rw [List.map_map]
      rfl
    rw [hps, ← hsum]
    rfl
  · intro be hbe
    rw [hatt] at hbe
    rcases List.mem_map.mp hbe with ⟨i, hi, rfl⟩
    obtain ⟨eq, hmem2, hid, hpr⟩ := hmem i hi
    exact ⟨eq, hmem2, hid, hpr⟩

/-- Scenario D store: the camp's nightly price equals the constant 10000,
one equipment item of unit price 50000 and stock 5. -/
def stD : Store :=
  { camps := [camp1], equipments := [eqTent], bookings := [], booking_equipments := [],
    nextBookingId := 1 }

def rD : CreateBookingRequest :=
  { campId := 101, startDate := 0, endDate := 2, peopleCount := 4,
    equipments := [{ equipmentId := 201, quantity := 2, nights := some 1 }], userId := 7 }

theorem total_price_formula_witness :
    (createBooking stD rD).2 = .ok (newBookingOf stD rD camp1 100000) ∧
    (newBookingOf stD rD camp1 100000).total_price =
      max 1 ((rD.endDate : Int) - (rD.startDate : Int)) * PRICE_PER_PERSON_PER_DAY *
        rD.peopleCount +
      sumPrices (attachmentsOf (createBooking stD rD).1 (newBookingOf stD rD camp1 100000).id) ∧
    ∀ be ∈ attachmentsOf (createBooking stD rD).1 (newBookingOf stD rD camp1 100000).id,
      ∃ eq ∈ stD.equipments, be.equipment_id = eq.id ∧
        be.price = eq.price * be.quantity * be.nights :=
  total_price_formula stD rD camp1 100000
    [{ equipment_id := 1, quantity := 2, nights := 1, price := 100000 }]
    (by decide) (by decide) (by decide) (by decide) rfl (by decide)

/-- C4: counterexample to the claimed use of the campsite's nightly price:
with nightly_price 20000, 2 nights and 4 people the stored total is 80000
(from the constant 10000), not 2 * 20000 * 4 = 160000. -/
theorem total_price_ignores_nightly_price_counterexample :
    campX.nightly_price = 20000 ∧
    (createBooking stC4 rC4).2 =
      .ok { id := 1, public_id := 1, user_id := 7, camp_id := 1, start_date := 0,
            end_date := 2, people_count := 4, total_price := 80000,
            status := .PENDING } ∧
    (80000 : Int) ≠ 2 * 20000 * 4 :=
  ⟨rfl, rfl, by decide⟩
